import Mathlib

/- Verification development for the pyside-asyncio-prototype repository.
   The definitions below are a shallow embedding of the actor-mailbox core:
   src/prototype/async_core/messaging.py (AsyncInbox, ReplyChannel),
   src/prototype/async_core/worker.py (AsyncWorker lifecycle),
   src/prototype/async_worker.py (the older AsyncWorker with try/finally),
   src/prototype/async_controller.py (the controller state machine), and
   src/prototype/camera_client.py (the line-protocol device client). -/

namespace PySideAsyncio

/-- Model of asyncio.Queue as used by the messaging layer: a bounded or
unbounded FIFO. The field maxsize of 0 means unbounded, matching asyncio. -/
structure Queue (α : Type) where
  maxsize : Nat
  items : List α
deriving DecidableEq

/-- Model of asyncio.Queue.full: an unbounded queue is never full; a bounded
queue is full when it holds at least maxsize items. -/
def Queue.full (q : Queue α) : Bool :=
  if q.maxsize = 0 then false else decide (q.maxsize ≤ q.items.length)

/-- Model of asyncio.Queue.put_nowait: appends to the tail; on a full bounded
queue the call raises QueueFull, modelled as none. -/
def Queue.put_nowait (q : Queue α) (x : α) : Option (Queue α) :=
  if q.full then none else some ⟨q.maxsize, q.items ++ [x]⟩

/-- Model of asyncio.Queue.get: removes and returns the oldest item; on an
empty queue the caller suspends, modelled as none. -/
def Queue.get (q : Queue α) : Option (α × Queue α) :=
  match q.items with
  | [] => none
  | x :: rest => some (x, ⟨q.maxsize, rest⟩)

/-- Model of ReplyChannel from src/prototype/async_core/messaging.py:
a wrapper over an asyncio.Queue created with maximum size 1. -/
structure ReplyChannel (α : Type) where
  queue : Queue α
deriving DecidableEq

/-- Model of ReplyChannel.__init__: a fresh channel holds an empty queue of
maximum size 1. -/
def ReplyChannel.new (α : Type) : ReplyChannel α :=
  ⟨⟨1, []⟩⟩

/-- Model of ReplyChannel.reply: put_nowait of the message onto the size-one
queue; none models the QueueFull exception raised when the slot is occupied. -/
def ReplyChannel.reply (c : ReplyChannel α) (message : α) : Option (ReplyChannel α) :=
  (c.queue.put_nowait message).map ReplyChannel.mk

/-- Model of ReplyChannel.read_reply: get from the size-one queue; none models
the suspension that occurs while no reply has been deposited. -/
def ReplyChannel.read_reply (c : ReplyChannel α) : Option (α × ReplyChannel α) :=
  (c.queue.get).map (fun p => (p.1, ⟨p.2⟩))

/-- An item held by an AsyncInbox queue: either a bare message, or the pair of
a message and a reply channel that send_synchronous enqueues. The run loop of
the worker distinguishes the two shapes by pattern matching, which this tagged
type records. -/
inductive InboxItem (M R : Type) where
  | plain (message : M)
  | withReply (message : M) (channel : ReplyChannel R)
deriving DecidableEq

/-- Model of AsyncInbox from src/prototype/async_core/messaging.py: a wrapper
over an asyncio.Queue. The type parameter R is the reply type carried by the
channels of synchronous sends. -/
structure AsyncInbox (M R : Type) where
  queue : Queue (InboxItem M R)
deriving DecidableEq

/-- Model of AsyncInbox.__init__ with the default maxsize of 0 (unbounded). -/
def AsyncInbox.new (M R : Type) : AsyncInbox M R :=
  ⟨⟨0, []⟩⟩

/-- Model of AsyncInbox.send: put_nowait of the bare message onto the queue. -/
def AsyncInbox.send (inbox : AsyncInbox M R) (message : M) : Option (AsyncInbox M R) :=
  (inbox.queue.put_nowait (.plain message)).map AsyncInbox.mk

/-- Model of the enqueue half of AsyncInbox.send_synchronous: a fresh
ReplyChannel is created and the pair of the message and the channel is placed
on the queue with put_nowait; the caller then suspends on read_reply of that
same channel, which is returned here so that theorems can thread it through
the reader. -/
def AsyncInbox.send_synchronous (inbox : AsyncInbox M R) (message : M) :
    Option (AsyncInbox M R × ReplyChannel R) :=
  (inbox.queue.put_nowait (.withReply message (ReplyChannel.new R))).map
    (fun q => (⟨q⟩, ReplyChannel.new R))

/-- Model of AsyncInbox.read: get of the oldest item; none models the
suspension on an empty inbox. -/
def AsyncInbox.read (inbox : AsyncInbox M R) : Option (InboxItem M R × AsyncInbox M R) :=
  (inbox.queue.get).map (fun p => (p.1, ⟨p.2⟩))

/-- Sequence of sends: every message of the list is sent in order. -/
def AsyncInbox.sendAll (inbox : AsyncInbox M R) (ms : List M) : Option (AsyncInbox M R) :=
  match ms with
  | [] => some inbox
  | m :: rest => (inbox.send m).bind (fun ib => ib.sendAll rest)

/-- Sequence of reads: n reads in order, collecting the items returned. -/
def AsyncInbox.readN : Nat → AsyncInbox M R → Option (List (InboxItem M R) × AsyncInbox M R)
  | 0, inbox => some ([], inbox)
  | n + 1, inbox =>
      inbox.read.bind (fun p => ((p.2).readN n).map (fun q => (p.1 :: q.1, q.2)))

/- Worker lifecycle, from src/prototype/async_core/worker.py and the older
   src/prototype/async_worker.py. The abstract hooks of the class (the concrete
   overrides of the initialization hook, the two message handlers and the
   shutdown hook) are modelled by their observable effect on the lifecycle:
   a handler invocation either returns, possibly having called
   schedule_shutdown on its own worker, or raises an exception; the
   initialization hook either succeeds or raises; the shutdown hook either
   returns or raises. -/

/-- Observable outcome of one message-handler invocation (either of
_receive_message or _receive_synchronous_message): the handler returns,
recording whether it called schedule_shutdown on its worker, or it raises. -/
inductive HandlerOutcome (E : Type) where
  | ok (requestShutdown : Bool)
  | raises (e : E)
deriving DecidableEq

/-- Mutable worker state, from the fields set in AsyncWorker.__init__:
the keep-running flag, the two lifecycle flags, and the inbox contents.
The counter shutdownRuns records how many times the shutdown hook has been
invoked, so that theorems can speak about it. -/
structure WorkerState (M R E : Type) where
  keepRunning : Bool
  isInitialized : Bool
  isShutdown : Bool
  pending : List (InboxItem M R)
  shutdownRuns : Nat
deriving DecidableEq

/-- Model of AsyncWorker.schedule_shutdown: sets the keep-running flag false. -/
def WorkerState.scheduleShutdown (w : WorkerState M R E) : WorkerState M R E :=
  { w with keepRunning := false }

/-- How the body of run exited: the while loop observed a false keep-running
flag (normal), the inbox read suspended forever on an empty inbox (blocked),
or an exception escaped the initialization hook or a handler (excepted). -/
inductive LoopExit (E : Type) where
  | normal
  | blocked
  | excepted (e : E)
deriving DecidableEq

/-- What run returns to its caller: a normal return, a suspension that never
resumes, or an exception propagated out of run. -/
inductive RunOutcome (E : Type) where
  | returned
  | blocked
  | raised (e : E)
deriving DecidableEq

/-- The receive loop of AsyncWorker.run: while the keep-running flag holds,
read the next inbox item and dispatch it to a handler; a handler that called
schedule_shutdown clears the flag, so the loop stops at the next check; a
handler that raises aborts the loop with the exception. Returns the loop exit
together with the final flag value and the remaining inbox items. -/
def runLoop (handle : InboxItem M R → HandlerOutcome E) :
    Bool → List (InboxItem M R) → LoopExit E × Bool × List (InboxItem M R)
  | false, items => (.normal, false, items)
  | true, [] => (.blocked, true, [])
  | true, item :: rest =>
      match handle item with
      | .ok requestShutdown => runLoop handle (!requestShutdown) rest
      | .raises e => (.excepted e, true, rest)

/-- The try body shared by both run variants: the initialization hook runs
first (an exception there escapes before is_initialized is set); on success
is_initialized is set and the receive loop runs. -/
def runBody (initOutcome : Except E Unit) (handle : InboxItem M R → HandlerOutcome E)
    (w : WorkerState M R E) : LoopExit E × WorkerState M R E :=
  match initOutcome with
  | .error e => (.excepted e, w)
  | .ok _ =>
      let w1 : WorkerState M R E := { w with isInitialized := true }
      let r := runLoop handle w1.keepRunning w1.pending
      (r.1, { w1 with keepRunning := r.2.1, pending := r.2.2 })

/-- The except branch of AsyncWorker.run in src/prototype/async_core/worker.py:
the shutdown hook is awaited, then is_shutdown is set. When the shutdown hook
itself raises (shutdownHook carries some e), is_shutdown is not reached and
the new exception propagates out of run; otherwise run returns normally. -/
def exceptBranch (shutdownHook : Option E) (w : WorkerState M R E) :
    RunOutcome E × WorkerState M R E :=
  match shutdownHook with
  | none => (.returned, { w with isShutdown := true, shutdownRuns := w.shutdownRuns + 1 })
  | some e2 => (.raised e2, { w with shutdownRuns := w.shutdownRuns + 1 })

/-- Model of AsyncWorker.run from src/prototype/async_core/worker.py: the try
body runs; only when it raises does the except branch invoke the shutdown
hook. A normal loop exit returns directly, without invoking the shutdown hook
and without setting is_shutdown, because the source uses except rather than
try/finally. -/
def run (initOutcome : Except E Unit) (handle : InboxItem M R → HandlerOutcome E)
    (shutdownHook : Option E) (w : WorkerState M R E) :
    RunOutcome E × WorkerState M R E :=
  match runBody initOutcome handle w with
  | (.normal, w1) => (.returned, w1)
  | (.blocked, w1) => (.blocked, w1)
  | (.excepted _, w1) => exceptBranch shutdownHook w1

/-- Model of AsyncWorker.run from the older src/prototype/async_worker.py: the
same try body, but with a finally block. Whatever way the body exits (other
than suspending forever), the shutdown hook is awaited and then is_shutdown is
set; an exception from the body still propagates after the finally block runs,
and an exception from the shutdown hook itself replaces it. -/
def runFinally (initOutcome : Except E Unit) (handle : InboxItem M R → HandlerOutcome E)
    (shutdownHook : Option E) (w : WorkerState M R E) :
    RunOutcome E × WorkerState M R E :=
  match runBody initOutcome handle w with
  | (.blocked, w1) => (.blocked, w1)
  | (.normal, w1) =>
      match shutdownHook with
      | none => (.returned, { w1 with isShutdown := true, shutdownRuns := w1.shutdownRuns + 1 })
      | some e2 => (.raised e2, { w1 with shutdownRuns := w1.shutdownRuns + 1 })
  | (.excepted e, w1) =>
      match shutdownHook with
      | none => (.raised e, { w1 with isShutdown := true, shutdownRuns := w1.shutdownRuns + 1 })
      | some e2 => (.raised e2, { w1 with shutdownRuns := w1.shutdownRuns + 1 })

/- Controller state machine, from src/prototype/async_controller.py. The
   observable behaviour of an event dispatch is modelled as the ordered list of
   actions it performs: signal emissions to the GUI (the fields of Signals in
   src/prototype/signals.py), device commands sent through the camera client,
   timed sleeps, and reassignments of the controller current-state pointer.
   Console prints are omitted as they are not part of any observable contract. -/

/-- The four concrete states of the controller, named after the classes Idle,
CameraExposing, SavingCameraImages and AbortingCameraExposure. -/
inductive CState where
  | idle
  | cameraExposing
  | savingCameraImages
  | abortingCameraExposure
deriving DecidableEq

/-- One observable action performed while the controller processes an event. -/
inductive Act where
  | emitTransitionToIdle
  | emitTransitionToCameraExposing
  | emitTransitionToSavingCameraImages
  | emitTransitionToAbortingCameraExposure
  | emitSetExposingTime (t : ℚ)
  | devStartExposure
  | devStopExposure
  | devGetExposingTime
  | sleep (seconds : Nat)
  | assignState (s : CState)
deriving DecidableEq

/-- The four messages the controller accepts, from the methods
start_camera_exposure, stop_camera_exposure, abort_camera_exposure and
get_exposing_time of AsyncController. -/
inductive ControllerEvent where
  | startCameraExposure
  | stopCameraExposure
  | abortCameraExposure
  | getExposingTime
deriving DecidableEq

/-- Exit actions of each state: only CameraExposing overrides on_exit, where it
awaits stop_exposure on the camera client. -/
def onExitActs : CState → List Act
  | .cameraExposing => [.devStopExposure]
  | _ => []

/-- Entry actions of each state, together with the state the controller points
at once the entry hook has returned. Idle emits its transition signal;
CameraExposing emits its signal and awaits start_exposure; SavingCameraImages
and AbortingCameraExposure emit their signal, sleep 2 seconds, and then call
_transition_to(Idle()) from within their own entry hook, whose body (exit of
the current state, pointer reassignment, entry of Idle) is inlined here. The
fuel argument bounds that re-entrant nesting; every theorem below holds for
every positive fuel, since the actual nesting depth is one. -/
def onEntryActs : Nat → CState → List Act × CState
  | _, .idle => ([.emitTransitionToIdle], .idle)
  | _, .cameraExposing =>
      ([.emitTransitionToCameraExposing, .devStartExposure], .cameraExposing)
  | 0, s => ([], s)
  | fuel + 1, .savingCameraImages =>
      let e := onEntryActs fuel .idle
      ([.emitTransitionToSavingCameraImages, .sleep 2]
        ++ onExitActs .savingCameraImages ++ Act.assignState .idle :: e.1, e.2)
  | fuel + 1, .abortingCameraExposure =>
      let e := onEntryActs fuel .idle
      ([.emitTransitionToAbortingCameraExposure, .sleep 2]
        ++ onExitActs .abortingCameraExposure ++ Act.assignState .idle :: e.1, e.2)

/-- Model of AsyncController._transition_to: the exit hook of the current
state runs to completion, then the current-state pointer is reassigned to the
new state, then the entry hook of the new state runs. Returns the action
trace and the state the pointer holds when the call returns. -/
def transitionToActs (fuel : Nat) (cur new : CState) : List Act × CState :=
  let e := onEntryActs fuel new
  (onExitActs cur ++ Act.assignState new :: e.1, e.2)

/-- The get_exposing_time override of each state: CameraExposing queries the
camera client and returns the elapsed time the device reports (the parameter
deviceTime); every other state returns 0.0 without touching the device. -/
def stateGetExposingTime (deviceTime : ℚ) : CState → List Act × ℚ
  | .cameraExposing => ([.devGetExposingTime], deviceTime)
  | _ => ([], 0)

/-- Dispatch of one controller event in a given state, following the method
overrides of Idle, CameraExposing, SavingCameraImages and
AbortingCameraExposure: the three transition-triggering pairs call
_transition_to; get_exposing_time defers to the state override and then the
controller emits set_exposing_time with the returned value; every remaining
pair is a pass statement. Returns the action trace, the state the pointer
holds afterwards, and the value returned to the caller (some value only for
get_exposing_time). -/
def handleEvent (fuel : Nat) (deviceTime : ℚ) (s : CState) (e : ControllerEvent) :
    List Act × CState × Option ℚ :=
  match s, e with
  | .idle, .startCameraExposure =>
      let t := transitionToActs fuel .idle .cameraExposing
      (t.1, t.2, none)
  | .cameraExposing, .stopCameraExposure =>
      let t := transitionToActs fuel .cameraExposing .savingCameraImages
      (t.1, t.2, none)
  | .cameraExposing, .abortCameraExposure =>
      let t := transitionToActs fuel .cameraExposing .abortingCameraExposure
      (t.1, t.2, none)
  | s, .getExposingTime =>
      let g := stateGetExposingTime deviceTime s
      (g.1 ++ [Act.emitSetExposingTime g.2], s, some g.2)
  | s, _ => ([], s, none)

/-- The first state assigned to the controller pointer within a trace, which
is the transition target of the event that produced the trace. -/
def firstAssigned : List Act → Option CState
  | [] => none
  | Act.assignState s :: _ => some s
  | _ :: rest => firstAssigned rest

/-- Whether an action is a command sent to the device. -/
def isDeviceCommand : Act → Bool
  | .devStartExposure => true
  | .devStopExposure => true
  | .devGetExposingTime => true
  | _ => false

/- Device client, from src/prototype/camera_client.py. Each command method is
   modelled by the ordered list of wire operations it performs together with
   the value it returns; the single response line the device sends back is a
   parameter. -/

/-- One operation on the device connection: a write of a complete string, or a
readline of one response line. -/
inductive WireOp where
  | write (line : String)
  | read
deriving DecidableEq

/-- Numeric value of a digit list, most significant first. -/
def digitsVal (l : List Char) : Nat :=
  l.foldl (fun n c => 10 * n + (c.toNat - 48)) 0

/-- Split a character list at the first character satisfying p: returns the
part before it and, when p was found, the part after it. -/
def splitAtChar (p : Char → Bool) : List Char → List Char × Option (List Char)
  | [] => ([], none)
  | c :: rest =>
      if p c then ([], some rest)
      else
        let r := splitAtChar p rest
        (c :: r.1, r.2)

/-- Whether every character of the list is a decimal digit. -/
def allDigits (l : List Char) : Bool :=
  l.all (fun c => c.isDigit)

/-- Leading sign of a numeric literal: the multiplier and the rest. -/
def stripSign : List Char → Int × List Char
  | '+' :: rest => (1, rest)
  | '-' :: rest => (-1, rest)
  | cs => (1, cs)

/-- Mantissa of a decimal literal: digits, optionally split by one point, with
at least one digit present overall. -/
def parseMantissa (cs : List Char) : Option ℚ :=
  let p := splitAtChar (fun c => c = '.') cs
  match p.2 with
  | none =>
      if allDigits p.1 && decide (p.1 ≠ []) then some ((digitsVal p.1 : ℚ)) else none
  | some frac =>
      if allDigits p.1 && allDigits frac && (decide (p.1 ≠ []) || decide (frac ≠ [])) then
        some ((digitsVal p.1 : ℚ) + (digitsVal frac : ℚ) / ((10 : ℚ) ^ frac.length))
      else none

/-- Exponent part of a decimal literal: an optional sign and digits. -/
def parseExponent (cs : List Char) : Option Int :=
  let s := stripSign cs
  if allDigits s.2 && decide (s.2 ≠ []) then some (s.1 * (digitsVal s.2 : Int)) else none

/-- Model of the Python float constructor applied to a stripped response line,
restricted to finite decimal literals (optional sign, digits with an optional
point, optional exponent); the special values inf and nan have no rational
counterpart and are outside the protocol, whose replies are decimal seconds. -/
def parseFloatLit (s : String) : Option ℚ :=
  let sg := stripSign s.toList
  let p := splitAtChar (fun c => c = 'e' || c = 'E') sg.2
  (parseMantissa p.1).bind (fun m =>
    match p.2 with
    | none => some ((sg.1 : ℚ) * m)
    | some ecs => (parseExponent ecs).map (fun e => (sg.1 : ℚ) * m * (10 : ℚ) ^ e))

/-- Model of CameraClient.get_exposing_time: one write of the command line
followed by the line separator (CameraClient.__write appends it), one readline
(CameraClient.__read, which strips the line), then the stripped response is
passed to the float constructor; an unparseable line raises ValueError,
modelled as the error case, and no retry happens. -/
def get_exposing_time (response : String) : List WireOp × Except String ℚ :=
  ([WireOp.write ("get_exposing_time" ++ ("\n")), WireOp.read],
   match parseFloatLit response.trim with
   | some q => Except.ok q
   | none => Except.error response.trim)

/- Helper lemmas shared by the claim theorems. -/

/-- Sending a list of messages to an unbounded inbox always succeeds and
appends the messages, wrapped as plain items, in order. -/
theorem sendAll_unbounded (ms : List M) (items : List (InboxItem M R)) :
    AsyncInbox.sendAll ⟨⟨0, items⟩⟩ ms
      = some ⟨⟨0, items ++ ms.map InboxItem.plain⟩⟩ := by
  induction ms generalizing items with
  | nil => simp [AsyncInbox.sendAll]
  | cons m rest ih =>
      simp [AsyncInbox.sendAll, AsyncInbox.send, Queue.put_nowait, Queue.full,
        Option.bind, ih]

/-- Reading n times from an inbox holding at least n items returns the first
n items in order and leaves the rest queued. -/
theorem readN_of_le (n : Nat) (maxsize : Nat) (items : List (InboxItem M R))
    (h : n ≤ items.length) :
    AsyncInbox.readN n ⟨⟨maxsize, items⟩⟩
      = some (items.take n, ⟨⟨maxsize, items.drop n⟩⟩) := by
  induction n generalizing items with
  | zero => simp [AsyncInbox.readN]
  | succ k ih =>
      match items with
      | [] => simp at h
      | x :: rest =>
          have hk : k ≤ rest.length := by simpa using h
          simp [AsyncInbox.readN, AsyncInbox.read, Queue.get, ih rest hk]

/-- Claim C4: for every sequence of N sends to a single mailbox with no
concurrent reader, performing N reads returns exactly the N sent items,
unmodified, in send order, with no drops, duplicates or reordering, leaving
the mailbox as it started. -/
theorem c4_mailbox_fifo (M R : Type) (ms : List M) :
    (AsyncInbox.sendAll (AsyncInbox.new M R) ms).bind
        (fun inbox => inbox.readN ms.length)
      = some (ms.map InboxItem.plain, AsyncInbox.new M R) := by
  have hs := sendAll_unbounded (R := R) ms []
  have hr := readN_of_le (M := M) (R := R) ms.length 0 (ms.map InboxItem.plain)
    (by simp)
  simp only [AsyncInbox.new] at hs ⊢
  rw [hs]
  simp only [Option.some_bind, List.nil_append]
  rw [hr]
  simp

/-- Claim C5: send_synchronous enqueues the message paired with a fresh reply
channel; the reader that dequeues the pair receives exactly that message and
that channel; and the single reply made on the channel is exactly the value
the suspended read_reply of the sender then returns. -/
theorem c5_synchronous_round_trip (M R : Type) (m : M) (v : R) :
    (AsyncInbox.send_synchronous (AsyncInbox.new M R) m
      = some (⟨⟨0, [InboxItem.withReply m (ReplyChannel.new R)]⟩⟩, ReplyChannel.new R))
  ∧ (AsyncInbox.read (⟨⟨0, [InboxItem.withReply m (ReplyChannel.new R)]⟩⟩ : AsyncInbox M R)
      = some (InboxItem.withReply m (ReplyChannel.new R), AsyncInbox.new M R))
  ∧ (((ReplyChannel.new R).reply v).bind ReplyChannel.read_reply
      = some (v, ReplyChannel.mk ⟨1, []⟩)) :=
  ⟨rfl, rfl, rfl⟩

/-- Claim C8 counterexample: on the ReplyChannel of the code, a second reply
made after the first reply has already been read is accepted, not rejected:
the size-one queue is empty again after the read, so put_nowait succeeds. -/
theorem c8_counterexample :
    ((((ReplyChannel.new Nat).reply 1).bind ReplyChannel.read_reply).bind
        (fun p => p.2.reply 2))
      = some (ReplyChannel.mk ⟨1, [2]⟩) :=
  rfl

/-- Claim C8 as amended: at most one reply may be pending at a time. A second
reply made while the first is still undelivered is rejected (the size-one
queue is full); reading before any reply exists suspends the reader; and once
the pending reply has been read, a further reply is accepted again. -/
theorem c8_single_pending_reply (R : Type) (v w : R) :
    ((((ReplyChannel.new R).reply v).bind (fun c => c.reply w)) = none)
  ∧ ((ReplyChannel.new R).read_reply = none)
  ∧ (((((ReplyChannel.new R).reply v).bind ReplyChannel.read_reply).bind
        (fun p => p.2.reply w))
      = some (ReplyChannel.mk ⟨1, [w]⟩)) :=
  ⟨rfl, rfl, rfl⟩

/-- Claim C1 fails on src/prototype/async_core/worker.py: on the failing input
(a worker whose single queued message is handled by a handler that calls
schedule_shutdown, so the loop exits normally), run of the async_core worker
returns without ever invoking the shutdown hook and with is_shutdown still
false, because its run uses an except clause and no finally; the older run of
src/prototype/async_worker.py, whose try/finally matches the claim, invokes
the shutdown hook exactly once and sets is_shutdown on the same input. -/
theorem c1_shutdown_hook_skipped_on_normal_exit :
    (run (Except.ok ()) (fun _ => HandlerOutcome.ok true) none
        (⟨true, false, false, [InboxItem.plain 0], 0⟩ : WorkerState Nat Nat Unit)
      = (RunOutcome.returned, ⟨false, true, false, [], 0⟩))
  ∧ (runFinally (Except.ok ()) (fun _ => HandlerOutcome.ok true) none
        (⟨true, false, false, [InboxItem.plain 0], 0⟩ : WorkerState Nat Nat Unit)
      = (RunOutcome.returned, ⟨false, true, true, [], 1⟩)) :=
  ⟨rfl, rfl⟩

/-- Claim C9: calling schedule_shutdown repeatedly is the same as calling it
once (the keep-running flag is simply set false), and the receive loop then
exits at its next check; but on that very run the shutdown hook of the
async_core worker is invoked zero times, not exactly once as the claim states,
because run has no finally clause (the same defect as claim C1). -/
theorem c9_schedule_shutdown_idempotent_without_shutdown_hook :
    (∀ (M R E : Type) (w : WorkerState M R E),
      w.scheduleShutdown.scheduleShutdown = w.scheduleShutdown)
  ∧ (run (Except.ok ()) (fun _ => HandlerOutcome.ok false) none
        ((⟨true, false, false, [], 0⟩ : WorkerState Nat Nat Unit).scheduleShutdown)
      = (RunOutcome.returned, ⟨false, true, false, [], 0⟩)) :=
  ⟨fun _ _ _ _ => rfl, rfl⟩

/-- Claim C10: when the shutdown hook of the async_core worker does not itself
raise, run never propagates an exception to its caller: whatever the outcome
of the initialization hook and of the handlers, run either returns normally
or suspends forever on an empty inbox; in particular an initialization
failure and a handler failure on the next queued message both end in a normal
return, absorbed by the except branch. -/
theorem c10_run_absorbs_exceptions (M R E : Type) (initOutcome : Except E Unit)
    (handle : InboxItem M R → HandlerOutcome E) (w : WorkerState M R E) :
    ((run initOutcome handle none w).1 = RunOutcome.returned
      ∨ (run initOutcome handle none w).1 = RunOutcome.blocked)
  ∧ (∀ e : E, (run (Except.error e) handle none w).1 = RunOutcome.returned)
  ∧ (∀ (e : E) (item : InboxItem M R) (rest : List (InboxItem M R)),
      (run (Except.ok ()) (fun _ => HandlerOutcome.raises e) none
          (⟨true, w.isInitialized, w.isShutdown, item :: rest, w.shutdownRuns⟩
            : WorkerState M R E)).1
        = RunOutcome.returned) := by
  refine ⟨?_, fun e => rfl, fun e item rest => rfl⟩
  rcases hb : runBody initOutcome handle w with ⟨exit, w1⟩
  cases exit with
  | normal => left; simp [run, hb]
  | blocked => right; simp [run, hb]
  | excepted e => left; simp [run, hb, exceptBranch]

/-- Entry of Idle needs no fuel: it only emits the idle transition signal. -/
theorem onEntryActs_idle (n : Nat) :
    onEntryActs n CState.idle = ([Act.emitTransitionToIdle], CState.idle) := by
  cases n <;> rfl

/-- Claim C2: the controller follows the transition table of the spec. The
three valid pairs reassign the pointer to Exposing, Saving and Aborting
respectively; the seven remaining (state, event) pairs for start, stop and
abort produce no action at all (no device command, no notification), leave the
state unchanged and return nothing; and get_exposing_time returns 0.0 in
Idle, Saving and Aborting and the device-reported elapsed time in Exposing,
leaving the state unchanged in all four. -/
theorem c2_transition_table (t : ℚ) (n : Nat) :
    (firstAssigned (handleEvent (n + 1) t .idle .startCameraExposure).1
      = some CState.cameraExposing)
  ∧ (firstAssigned (handleEvent (n + 1) t .cameraExposing .stopCameraExposure).1
      = some CState.savingCameraImages)
  ∧ (firstAssigned (handleEvent (n + 1) t .cameraExposing .abortCameraExposure).1
      = some CState.abortingCameraExposure)
  ∧ (handleEvent (n + 1) t .cameraExposing .startCameraExposure
      = ([], CState.cameraExposing, none))
  ∧ (handleEvent (n + 1) t .savingCameraImages .startCameraExposure
      = ([], CState.savingCameraImages, none))
  ∧ (handleEvent (n + 1) t .abortingCameraExposure .startCameraExposure
      = ([], CState.abortingCameraExposure, none))
  ∧ (handleEvent (n + 1) t .idle .stopCameraExposure = ([], CState.idle, none))
  ∧ (handleEvent (n + 1) t .savingCameraImages .stopCameraExposure
      = ([], CState.savingCameraImages, none))
  ∧ (handleEvent (n + 1) t .abortingCameraExposure .stopCameraExposure
      = ([], CState.abortingCameraExposure, none))
  ∧ (handleEvent (n + 1) t .idle .abortCameraExposure = ([], CState.idle, none))
  ∧ (handleEvent (n + 1) t .savingCameraImages .abortCameraExposure
      = ([], CState.savingCameraImages, none))
  ∧ (handleEvent (n + 1) t .abortingCameraExposure .abortCameraExposure
      = ([], CState.abortingCameraExposure, none))
  ∧ (handleEvent (n + 1) t .idle .getExposingTime
      = ([Act.emitSetExposingTime 0], CState.idle, some 0))
  ∧ (handleEvent (n + 1) t .cameraExposing .getExposingTime
      = ([Act.devGetExposingTime, Act.emitSetExposingTime t], CState.cameraExposing, some t))
  ∧ (handleEvent (n + 1) t .savingCameraImages .getExposingTime
      = ([Act.emitSetExposingTime 0], CState.savingCameraImages, some 0))
  ∧ (handleEvent (n + 1) t .abortingCameraExposure .getExposingTime
      = ([Act.emitSetExposingTime 0], CState.abortingCameraExposure, some 0)) :=
  ⟨rfl, rfl, rfl, rfl, rfl, rfl, rfl, rfl, rfl, rfl, rfl, rfl, rfl, rfl, rfl, rfl⟩

/-- Claim C3: from Exposing, one stop call produces exactly this action
sequence: the stop_exposure device command (during the exit of Exposing),
the pointer reassignment to Saving, the saving notification, the fixed
2-second simulated save delay, and then the autonomous reassignment back to
Idle with its notification — all within the handling of the single external
call; the pointer ends at Idle and stop_exposure is the only device command
issued. -/
theorem c3_stop_exposure_sequence (t : ℚ) (n : Nat) :
    ((handleEvent (n + 1) t .cameraExposing .stopCameraExposure).1
      = [Act.devStopExposure, Act.assignState CState.savingCameraImages,
         Act.emitTransitionToSavingCameraImages, Act.sleep 2,
         Act.assignState CState.idle, Act.emitTransitionToIdle])
  ∧ ((handleEvent (n + 1) t .cameraExposing .stopCameraExposure).2.1 = CState.idle)
  ∧ ((handleEvent (n + 1) t .cameraExposing .stopCameraExposure).1.filter isDeviceCommand
      = [Act.devStopExposure]) := by
  have h := onEntryActs_idle n
  refine ⟨?_, ?_, ?_⟩ <;>
    simp [handleEvent, transitionToActs, onEntryActs, onExitActs, h,
      isDeviceCommand, List.filter]

/-- Claim C6: _transition_to performs its steps strictly in order: the trace
of every transition is exactly the exit actions of the old state, then the
pointer reassignment to the new state, then the entry actions of the new
state; the state the call ends in is the one the entry hook of the new state
ends in; and the first pointer reassignment of the whole trace is to the new
state, so nothing of the new state runs before the exit hook has completed. -/
theorem c6_transition_to_sequencing (n : Nat) (cur new : CState) :
    ((transitionToActs n cur new).1
      = onExitActs cur ++ Act.assignState new :: (onEntryActs n new).1)
  ∧ ((transitionToActs n cur new).2 = (onEntryActs n new).2)
  ∧ (firstAssigned (transitionToActs n cur new).1 = some new) := by
  refine ⟨rfl, rfl, ?_⟩
  cases cur <;> rfl

/-- Whether a wire operation is a write. -/
def isWriteOp : WireOp → Bool
  | .write _ => true
  | .read => false

/-- Whether a wire operation is a readline. -/
def isReadOp : WireOp → Bool
  | .write _ => false
  | .read => true

/-- Claim C7: get_exposing_time writes exactly one request line, terminated by
the line separator, reads exactly one response line, and returns the stripped
line parsed as a floating-point seconds value; when the line does not parse
as a number the call fails with an error instead of returning a value, and
the wire trace is the same fixed single round trip either way, so no retry
is performed. -/
theorem c7_get_exposing_time_protocol (response : String) :
    ((get_exposing_time response).1
      = [WireOp.write ("get_exposing_time\n"), WireOp.read])
  ∧ ((get_exposing_time response).1.countP isWriteOp = 1)
  ∧ ((get_exposing_time response).1.countP isReadOp = 1)
  ∧ ((∃ q, parseFloatLit response.trim = some q
        ∧ (get_exposing_time response).2 = Except.ok q)
      ∨ (parseFloatLit response.trim = none
        ∧ (get_exposing_time response).2 = Except.error response.trim)) := by
  refine ⟨rfl, rfl, rfl, ?_⟩
  cases h : parseFloatLit response.trim with
  | none => right; exact ⟨rfl, by simp [get_exposing_time, h]⟩
  | some q => left; exact ⟨q, rfl, by simp [get_exposing_time, h]⟩

end PySideAsyncio
